import Mathlib

/-!
Verification of the ioshelfer DPR core (detection, prediction, remediation,
storage) against its natural-language specification.

Shallow embedding conventions:
- Go time.Duration and time.Time values are modelled as Int (nanoseconds);
  only ordering and arithmetic on them matter to the claims.
- Go float64 values are modelled as rationals; every float literal in the
  source is an exact decimal, so the arithmetic of the classifier rules is
  exact.
- Go multi-return (T, error) is modelled as a pair with an Option error, or
  as Except when the zero value of T is never observed by callers.
- IO performed by the source (file reads, eBPF queries, logging) is
  modelled by passing the result of the read as an argument; the embedded
  functions are the pure decision logic applied to that result.
-/

set_option autoImplicit false

/-- Health state of a component, from internal/common/types/enum/enum.go
(Healthy = 0, SubHealthy = 1, Failed = 2, as Go iota constants). -/
inductive enum.HealthStatus where
  | Healthy
  | SubHealthy
  | Failed
  deriving DecidableEq, Repr

/-- Type of monitored device, from internal/common/types/enum/enum.go. -/
inductive enum.DeviceType where
  | RAID
  | Disk
  | Network
  deriving DecidableEq, Repr

/-- Remediation isolation strategy, from internal/common/types/enum/enum.go. -/
inductive enum.IsolationStrategy where
  | Temporary
  | Permanent
  deriving DecidableEq, Repr

/-- RAID controller metrics produced by the eBPF monitor. The ebpf package
itself is not part of the sources; the field shapes are those used by its
callers (pkg/raid/controller.go and internal/core/detection): QueueDepth int,
AvgLatency time.Duration (Int nanoseconds), ErrorRetryRate int. -/
structure ebpf.RAIDMetrics where
  QueueDepth : Int
  AvgLatency : Int
  ErrorRetryRate : Int
  deriving DecidableEq, Repr

/-- SMART summary carried inside disk metrics; field shape taken from the
caller DiskDetector.CheckSubHealth (metrics.SMART.ReallocatedSectors). -/
structure ebpf.SMARTInfo where
  ReallocatedSectors : Int
  deriving DecidableEq, Repr

/-- Disk metrics produced by the eBPF monitor; field shapes taken from the
caller DiskDetector.CheckSubHealth. -/
structure ebpf.DiskMetrics where
  IOPSVariance : ℚ
  SMART : ebpf.SMARTInfo
  deriving DecidableEq, Repr

/-- Network metrics produced by the eBPF monitor; field shapes taken from
the caller NetworkDetector.CheckSubHealth. -/
structure ebpf.NetworkMetrics where
  PacketLossRate : ℚ
  LatencyP95 : Int
  deriving DecidableEq, Repr

/-- Configuration of the RAID controller monitor, from pkg/raid/controller.go. -/
structure raid.Config where
  QueueThreshold : Int
  LatencyThreshold : Int
  FirmwareVersion : String
  MonitorInterval : Int
  deriving DecidableEq, Repr

/-- Health status record returned by the RAID controller monitor, from
pkg/raid/controller.go. -/
structure raid.HealthStatus where
  ControllerID : String
  Status : enum.HealthStatus
  QueueDepth : Int
  AvgLatency : Int
  FirmwareStatus : String
  Confidence : ℚ
  Recommendation : String
  deriving DecidableEq, Repr

/-- Helper min on float64 values, from pkg/raid/controller.go lines 133-138
(written raid.min since Lean already has a global min). -/
def raid.min (a b : ℚ) : ℚ :=
  if a < b then a else b

/-- RAIDController.CheckHealth from pkg/raid/controller.go, lines 53-114,
embedded on the successful-metrics path: the Go function first fetches
metrics via GetMetrics (returning a wrapped error on failure); here the
fetched metrics are an argument and the rule evaluation is embedded
verbatim. Each rule is a sequential mutation of the status, confidence and
recommendation variables, exactly as in the source: the queue rule assigns
confidence 0.95 outright, the latency rule takes min with 0.90, the retries
rule assigns 0.99 outright, and the firmware rule takes min with 0.85 (the
source compares the configured version against the mocked actual version
v1.0 and fires only when a version is configured and differs). -/
def raid.RAIDController.CheckHealth (config : raid.Config) (controllerID : String)
    (metrics : ebpf.RAIDMetrics) : raid.HealthStatus :=
  let status := enum.HealthStatus.Healthy
  let confidence : ℚ := 1.0
  let recommendation := "no action required"
  let firmwareStatus := "matched"
  let (status, confidence, recommendation) :=
    if metrics.QueueDepth ≥ config.QueueThreshold then
      (enum.HealthStatus.SubHealthy, (0.95 : ℚ), "temporary isolation recommended")
    else (status, confidence, recommendation)
  let (status, confidence, recommendation) :=
    if metrics.AvgLatency > config.LatencyThreshold then
      (enum.HealthStatus.SubHealthy, raid.min confidence 0.90,
        "check controller firmware and isolate if persistent")
    else (status, confidence, recommendation)
  let (status, confidence, recommendation) :=
    if metrics.ErrorRetryRate > 100 then
      (enum.HealthStatus.Failed, (0.99 : ℚ), "immediate isolation and replacement")
    else (status, confidence, recommendation)
  let (firmwareStatus, status, confidence, recommendation) :=
    if config.FirmwareVersion ≠ "" ∧ config.FirmwareVersion ≠ "v1.0" then
      ("mismatch", enum.HealthStatus.SubHealthy, raid.min confidence 0.85,
        "update firmware to " ++ config.FirmwareVersion)
    else (firmwareStatus, status, confidence, recommendation)
  { ControllerID := controllerID
    Status := status
    QueueDepth := metrics.QueueDepth
    AvgLatency := metrics.AvgLatency
    FirmwareStatus := firmwareStatus
    Confidence := confidence
    Recommendation := recommendation }

example :
    raid.RAIDController.CheckHealth
      { QueueThreshold := 128, LatencyThreshold := 20000000, FirmwareVersion := "", MonitorInterval := 0 }
      "c0" { QueueDepth := 145, AvgLatency := 25000000, ErrorRetryRate := 10 } =
    { ControllerID := "c0", Status := enum.HealthStatus.SubHealthy, QueueDepth := 145,
      AvgLatency := 25000000, FirmwareStatus := "matched", Confidence := 0.90,
      Recommendation := "check controller firmware and isolate if persistent" } := by
  simp only [raid.RAIDController.CheckHealth, raid.min]
  norm_num

/-- Configuration of the detection engine, from internal/core/detection
(src/unnamed/part_001, lines 11-17). -/
structure detection.Config where
  QueueThreshold : Int
  LatencyThreshold : Int
  MonitorInterval : Int
  IOPSVarThreshold : ℚ
  PacketLossThreshold : ℚ
  deriving DecidableEq, Repr

/-- Device-specific metrics slot of a detection verdict: the Go field is an
interface value holding RAID, disk or network metrics; modelled as a tagged
variant over the three shapes actually stored. -/
inductive detection.Metrics where
  | raid (m : ebpf.RAIDMetrics)
  | disk (m : ebpf.DiskMetrics)
  | network (m : ebpf.NetworkMetrics)
  deriving DecidableEq, Repr

/-- Result of a sub-health check, from internal/core/detection
(src/unnamed/part_001, lines 19-26). -/
structure detection.HealthStatus where
  DeviceType : enum.DeviceType
  Status : enum.HealthStatus
  Confidence : ℚ
  Recommendation : String
  Metrics : detection.Metrics
  deriving DecidableEq, Repr

/-- RAIDDetector.CheckSubHealth from internal/core/detection
(src/unnamed/part_001, lines 48-83), embedded on the successful-metrics
path (on an eBPF error the Go function returns a queue-overflow error).
Unlike the pkg/raid monitor, every triggered rule here assigns confidence
outright; no min is taken. -/
def detection.RAIDDetector.CheckSubHealth (config : detection.Config)
    (metrics : ebpf.RAIDMetrics) : detection.HealthStatus :=
  let status := enum.HealthStatus.Healthy
  let confidence : ℚ := 1.0
  let recommendation := "no action required"
  let (status, confidence, recommendation) :=
    if metrics.QueueDepth ≥ config.QueueThreshold then
      (enum.HealthStatus.SubHealthy, (0.95 : ℚ), "temporary isolation recommended")
    else (status, confidence, recommendation)
  let (status, confidence, recommendation) :=
    if metrics.AvgLatency > config.LatencyThreshold then
      (enum.HealthStatus.SubHealthy, (0.90 : ℚ), "check controller firmware and isolate if persistent")
    else (status, confidence, recommendation)
  let (status, confidence, recommendation) :=
    if metrics.ErrorRetryRate > 100 then
      (enum.HealthStatus.Failed, (0.99 : ℚ), "immediate isolation and replacement")
    else (status, confidence, recommendation)
  { DeviceType := enum.DeviceType.RAID
    Status := status
    Confidence := confidence
    Recommendation := recommendation
    Metrics := detection.Metrics.raid metrics }

/-- DiskDetector.CheckSubHealth from internal/core/detection
(src/unnamed/part_001, lines 100-129), embedded on the successful-metrics
path. Note the source classifies reallocated sectors above 100 as
SubHealthy (confidence 0.95) and has no read-error-rate rule at all. -/
def detection.DiskDetector.CheckSubHealth (config : detection.Config)
    (metrics : ebpf.DiskMetrics) : detection.HealthStatus :=
  let status := enum.HealthStatus.Healthy
  let confidence : ℚ := 1.0
  let recommendation := "no action required"
  let (status, confidence, recommendation) :=
    if metrics.IOPSVariance > config.IOPSVarThreshold then
      (enum.HealthStatus.SubHealthy, (0.92 : ℚ), "monitor disk performance closely")
    else (status, confidence, recommendation)
  let (status, confidence, recommendation) :=
    if metrics.SMART.ReallocatedSectors > 100 then
      (enum.HealthStatus.SubHealthy, (0.95 : ℚ), "schedule disk replacement")
    else (status, confidence, recommendation)
  { DeviceType := enum.DeviceType.Disk
    Status := status
    Confidence := confidence
    Recommendation := recommendation
    Metrics := detection.Metrics.disk metrics }

/-- Single SMART attribute, from pkg/disk/smart.go lines 15-24. -/
structure disk.SMARTAttribute where
  ID : Int
  Name : String
  Value : Int
  Worst : Int
  Threshold : Int
  RawValue : Int
  Status : String
  deriving DecidableEq, Repr

/-- Complete SMART data for a disk, from pkg/disk/smart.go lines 26-38.
The Go Attributes field is a map from attribute id; only its value set is
consulted (a for-range over values), so it is modelled as a list. -/
structure disk.SMARTData where
  DeviceID : String
  Model : String
  SerialNumber : String
  Attributes : List disk.SMARTAttribute
  OverallStatus : enum.HealthStatus
  ReallocatedSectors : Int
  ReadErrorRate : ℚ
  Temperature : Int
  PowerOnHours : Int
  Timestamp : Int
  deriving DecidableEq, Repr

/-- SMARTMonitor.assessOverallHealth from pkg/disk/smart.go lines 194-223:
critical thresholds (reallocated sectors above 100, read error rate above
0.1), then temperature, then any FAILING attribute, then the warning
thresholds (reallocated sectors above 10, read error rate above 0.01). -/
def disk.SMARTMonitor.assessOverallHealth (data : disk.SMARTData) : enum.HealthStatus :=
  if data.ReallocatedSectors > 100 then enum.HealthStatus.Failed
  else if data.ReadErrorRate > 0.1 then enum.HealthStatus.Failed
  else if data.Temperature > 65 then enum.HealthStatus.SubHealthy
  else if data.Attributes.any (fun attr => attr.Status == "FAILING") then enum.HealthStatus.SubHealthy
  else if data.ReallocatedSectors > 10 then enum.HealthStatus.SubHealthy
  else if data.ReadErrorRate > 0.01 then enum.HealthStatus.SubHealthy
  else enum.HealthStatus.Healthy

/-- Single data point in the history store, from
internal/infra/storage/storage.go lines 15-21. The Value field is an
interface slot in Go; it is a type parameter here, instantiated with
Option disk.SMARTData where the SMART monitor reads it back (a failed
runtime cast is a none). Timestamps are Int nanoseconds. -/
structure storage.Metric (α : Type) where
  Timestamp : Int
  DeviceType : enum.DeviceType
  DeviceID : String
  Value : α
  deriving DecidableEq, Repr

/-- FileStorage.Store from internal/infra/storage/storage.go lines 46-80.
The Go function reads the per-device file (a missing file decodes to the
empty list), appends the new metric unconditionally, and writes the list
back; the read-and-decode outcome is the first argument (an error models a
failed read or unmarshal, which Store surfaces as a storage failure). No
timestamp is ever inspected. -/
def storage.FileStorage.Store {α : Type} (fileContents : Except String (List (storage.Metric α)))
    (metric : storage.Metric α) : Except String (List (storage.Metric α)) :=
  match fileContents with
  | Except.error e => Except.error e
  | Except.ok metrics => Except.ok (metrics ++ [metric])

/-- FileStorage.Query from internal/infra/storage/storage.go lines 83-117.
The Go function reads the per-device file (a missing file yields the empty
result without error), computes cutoff = now - window, and keeps the
metrics whose Timestamp is strictly after the cutoff, in file order. -/
def storage.FileStorage.Query {α : Type} (fileContents : Except String (List (storage.Metric α)))
    (now window : Int) : Except String (List (storage.Metric α)) :=
  match fileContents with
  | Except.error e => Except.error e
  | Except.ok metrics =>
    let cutoff := now - window
    Except.ok (metrics.filter (fun m => decide (cutoff < m.Timestamp)))

/-- Modelled from the spec: the window query contract of the History Store
(spec section 4.2) returns the entries with ts at least now minus the
duration, boundary included, in ascending ts order. Stated as a separate
definition to compare with the source Query above. -/
def storage.FileStorage.QuerySpec {α : Type} (metrics : List (storage.Metric α))
    (now window : Int) : List (storage.Metric α) :=
  (metrics.filter (fun m => decide (now - window ≤ m.Timestamp))).insertionSort
    (fun a b => a.Timestamp ≤ b.Timestamp)

/-- Disk performance metrics record, from pkg/disk/smart.go lines 40-48. -/
structure disk.PerformanceMetrics where
  DeviceID : String
  IOPSVariance : ℚ
  LatencyTrend : String
  ErrorTrend : String
  PredictedFailure : Bool
  deriving DecidableEq, Repr

/-- SMARTMonitor.calculateIOPSVariance from pkg/disk/smart.go lines
267-300: collects the reallocated-sector counts of the metrics whose value
slot holds SMART data and returns their population variance. -/
def disk.SMARTMonitor.calculateIOPSVariance
    (metrics : List (storage.Metric (Option disk.SMARTData))) : ℚ :=
  if metrics.length < 2 then 0
  else
    let values := metrics.filterMap
      (fun metric => metric.Value.map (fun smartData => (smartData.ReallocatedSectors : ℚ)))
    if values.length < 2 then 0
    else
      let mean := values.sum / (values.length : ℚ)
      (values.map (fun v => (v - mean) * (v - mean))).sum / (values.length : ℚ)

/-- SMARTMonitor.analyzeErrorTrend from pkg/disk/smart.go lines 302-329:
compares the first and last read error rates of the window; the defaults
passed to headD and getLastD are never used because both branches are
guarded by a length check of at least two. -/
def disk.SMARTMonitor.analyzeErrorTrend
    (metrics : List (storage.Metric (Option disk.SMARTData))) : String :=
  if metrics.length < 2 then "stable"
  else
    let errorRates := metrics.filterMap
      (fun metric => metric.Value.map (fun smartData => smartData.ReadErrorRate))
    if errorRates.length < 2 then "stable"
    else
      let first := errorRates.headD 0
      let last := errorRates.getLastD 0
      if last > first * 1.5 then "increasing"
      else if last < first * 0.5 then "decreasing"
      else "stable"

/-- SMARTMonitor.predictFailure from pkg/disk/smart.go lines 331-347:
requires at least three entries, then checks the latest entry only. -/
def disk.SMARTMonitor.predictFailure
    (metrics : List (storage.Metric (Option disk.SMARTData))) : Bool :=
  if metrics.length < 3 then false
  else
    match metrics.getLast? with
    | some latest =>
      match latest.Value with
      | some smartData =>
        decide (smartData.ReallocatedSectors > 50) || decide (smartData.ReadErrorRate > 0.05)
      | none => false
    | none => false

/-- SMARTMonitor.MonitorPerformance from pkg/disk/smart.go lines 226-265,
embedded after the storage query whose outcome is the second argument. A
window of fewer than two entries returns the low-data record; otherwise
the record is assembled field by field exactly as in the source, and the
LatencyTrend field is never assigned on that path, so it keeps the Go zero
value, the empty string. -/
def disk.SMARTMonitor.MonitorPerformance (deviceID : String)
    (queryResult : Except String (List (storage.Metric (Option disk.SMARTData)))) :
    Except String disk.PerformanceMetrics :=
  match queryResult with
  | Except.error e => Except.error ("failed to query historical SMART data: " ++ e)
  | Except.ok metrics =>
    if metrics.length < 2 then
      Except.ok { DeviceID := deviceID, IOPSVariance := 0, LatencyTrend := "stable",
                  ErrorTrend := "stable", PredictedFailure := false }
    else
      Except.ok { DeviceID := deviceID
                  IOPSVariance := disk.SMARTMonitor.calculateIOPSVariance metrics
                  LatencyTrend := ""
                  ErrorTrend := disk.SMARTMonitor.analyzeErrorTrend metrics
                  PredictedFailure := disk.SMARTMonitor.predictFailure metrics }

/-- Custom error type of internal/common/errors/errors.go: a CustomError
carries a code, a message and an optional cause; every other Go error is a
message, possibly wrapping a cause (the shape produced by the pkg errors
library used for non-custom values). -/
inductive errors.GoError where
  | custom (code : String) (message : String) (cause : Option errors.GoError)
  | wrapped (message : String) (cause : errors.GoError)
  | basic (message : String)
  deriving Repr

/-- Wrap from internal/common/errors/errors.go lines 93-105: nil stays nil;
a CustomError keeps its code and cause and gets the new message prefixed
with a colon and space; anything else is wrapped by the pkg errors library. -/
def errors.Wrap (err : Option errors.GoError) (msg : String) : Option errors.GoError :=
  match err with
  | none => none
  | some (errors.GoError.custom code message cause) =>
    some (errors.GoError.custom code (msg ++ ": " ++ message) cause)
  | some e => some (errors.GoError.wrapped msg e)

/-- New from internal/common/errors/errors.go lines 107-109; note it
delegates to Wrap, so a New with a nil cause is a nil error. -/
def errors.New (msg : String) (err : Option errors.GoError) : Option errors.GoError :=
  errors.Wrap err msg

/-- Features extracted from historical data by the prediction engine, from
internal/core/prediction/predictor.go lines 80-83 (a placeholder returning
fixed features). -/
def prediction.extractFeatures {α : Type} (data : List (storage.Metric α)) : List ℚ :=
  [0.1, 0.2, 0.3]

/-- LSTMModel.Predict from internal/core/prediction/predictor.go lines
75-78: the placeholder model returns the constant 0.75. -/
def prediction.LSTMModel.Predict (features : List ℚ) : ℚ :=
  0.75

/-- LSTMPredictor.PredictFailureProbability from
internal/core/prediction/predictor.go lines 47-64. The storage query
outcome is the second argument; the model predict method is the first, so
the range check can be stated for any model (the shipped placeholder is
prediction.LSTMModel.Predict). Returns the Go pair (float64, error). Note
the out-of-range branch builds its error with errors.New whose cause is
nil, and New delegates to Wrap, which maps a nil cause to a nil error: the
branch therefore returns probability 0 with a nil error. -/
def prediction.LSTMPredictor.PredictFailureProbability {α : Type}
    (predict : List ℚ → ℚ)
    (queryResult : Except String (List (storage.Metric α))) : ℚ × Option errors.GoError :=
  match queryResult with
  | Except.error e =>
    (0, some (errors.GoError.custom "ERR_STORAGE_FAILURE" "failed to query historical data"
          (some (errors.GoError.basic e))))
  | Except.ok data =>
    let features := prediction.extractFeatures data
    let probability := predict features
    if probability < 0 ∨ probability > 1 then
      (0, errors.New "invalid prediction probability" none)
    else (probability, none)

/-- Configuration of the remediation engine, from src/api/v1/raid.go
(remediation section) lines 160-165. -/
structure remediation.Config where
  AutoIsolation : Bool
  PreservePathsRatio : ℚ
  MinHealthyPaths : Int
  RecoveryTimeout : Int
  deriving DecidableEq, Repr

/-- Result of a remediation action, from the remediation package lines
167-174. -/
structure remediation.RemediationResult where
  DeviceType : enum.DeviceType
  DeviceID : String
  Action : String
  Success : Bool
  Error : Option errors.GoError
  deriving Repr

/-- Zero value of RemediationResult, returned by the Go code on its error
paths (DeviceType 0 is RAID, strings empty, Success false, Error nil). -/
def remediation.RemediationResult.zero : remediation.RemediationResult :=
  { DeviceType := enum.DeviceType.RAID, DeviceID := "", Action := "", Success := false, Error := none }

/-- RAIDRemediator.Isolate from the remediation package (src/api/v1/raid.go
remediation section, lines 197-240). The detector health check outcome is
the last argument, a Go pair of verdict and optional error. The function
checks the device type, the auto-isolation switch, and the current verdict;
a non-Healthy verdict is isolated unconditionally. The configured
PreservePathsRatio and MinHealthyPaths fields are never consulted. -/
def remediation.RAIDRemediator.Isolate (config : remediation.Config)
    (deviceType : enum.DeviceType) (deviceID : String) (strategy : enum.IsolationStrategy)
    (checkSubHealth : detection.HealthStatus × Option errors.GoError) :
    remediation.RemediationResult × Option errors.GoError :=
  if deviceType ≠ enum.DeviceType.RAID then
    (remediation.RemediationResult.zero, errors.New "invalid device type for RAID remediation" none)
  else if !config.AutoIsolation then
    ({ DeviceType := deviceType, DeviceID := deviceID, Action := "isolation skipped",
       Success := false, Error := none }, none)
  else
    match checkSubHealth with
    | (_, some err) =>
      (remediation.RemediationResult.zero, errors.Wrap (some err) "failed to check RAID health")
    | (status, none) =>
      if status.Status = enum.HealthStatus.Healthy then
        ({ DeviceType := deviceType, DeviceID := deviceID, Action := "no action",
           Success := true, Error := none }, none)
      else
        ({ DeviceType := deviceType, DeviceID := deviceID, Action := "isolated",
           Success := true, Error := none }, none)

/-- RAIDRemediator.Recover from the remediation package (src/api/v1/raid.go
remediation section, lines 243-277). Only the current detector verdict is
consulted: a Healthy verdict recovers, anything else fails the recovery.
No verdict history is available to the function. -/
def remediation.RAIDRemediator.Recover (deviceType : enum.DeviceType) (deviceID : String)
    (checkSubHealth : detection.HealthStatus × Option errors.GoError) :
    remediation.RemediationResult × Option errors.GoError :=
  if deviceType ≠ enum.DeviceType.RAID then
    (remediation.RemediationResult.zero, errors.New "invalid device type for RAID remediation" none)
  else
    match checkSubHealth with
    | (_, some err) =>
      (remediation.RemediationResult.zero, errors.Wrap (some err) "failed to check RAID health")
    | (status, none) =>
      if status.Status ≠ enum.HealthStatus.Healthy then
        ({ DeviceType := deviceType, DeviceID := deviceID, Action := "recovery failed",
           Success := false, Error := errors.New "device not healthy for recovery" none }, none)
      else
        ({ DeviceType := deviceType, DeviceID := deviceID, Action := "recovered",
           Success := true, Error := none }, none)

/-- Modelled from the spec: the path-preservation inequality of spec
section 4.5 (an Isolate may dispatch only if the count of remaining
non-isolated siblings is at least max(min_healthy_paths,
ceil(preserve_paths_ratio times population))). The source Isolate contains
no such check; this definition exists to state what the spec requires of a
dispatch, using the otherwise-unused safety fields of the remediation
Config. -/
def remediation.pathPreservationOK (config : remediation.Config)
    (population remaining : ℤ) : Prop :=
  remaining ≥ max config.MinHealthyPaths ⌈config.PreservePathsRatio * (population : ℚ)⌉

/-! Concrete fixtures used by the claim theorems below. -/

/-- Metric over a unit value slot with a given timestamp, for the storage
claims (the storage layer never inspects the value slot). -/
def metricT (t : Int) : storage.Metric Unit :=
  { Timestamp := t, DeviceType := enum.DeviceType.Disk, DeviceID := "d0", Value := () }

/-- Detection configuration fixture: queue threshold 128, latency
threshold 20ms. -/
def detCfgEx : detection.Config :=
  { QueueThreshold := 128, LatencyThreshold := 20000000, MonitorInterval := 0,
    IOPSVarThreshold := 100, PacketLossThreshold := 0.05 }

/-- Verdict of the RAID detector on a healthy sample (no rule triggers). -/
def healthyVerdictEx : detection.HealthStatus :=
  detection.RAIDDetector.CheckSubHealth detCfgEx
    { QueueDepth := 10, AvgLatency := 1000000, ErrorRetryRate := 0 }

/-- Verdict of the RAID detector on a degraded sample (queue rule
triggers: 145 exceeds the threshold 128). -/
def subHealthyVerdictEx : detection.HealthStatus :=
  detection.RAIDDetector.CheckSubHealth detCfgEx
    { QueueDepth := 145, AvgLatency := 1000000, ErrorRetryRate := 0 }

/-- Remediation configuration fixture with auto isolation on and the
default safety parameters of the spec (preserve half the paths, at least
one healthy path). -/
def remCfgEx : remediation.Config :=
  { AutoIsolation := true, PreservePathsRatio := 0.5, MinHealthyPaths := 1, RecoveryTimeout := 0 }

/-- C10: errors.Wrap returns nil when its error argument is nil, and when
wrapping a CustomError it preserves the original error Code unchanged
while prefixing the message, for every input message. -/
theorem c10_wrap_nil_and_preserves_code :
    (∀ msg : String, errors.Wrap none msg = none) ∧
    (∀ (msg code message : String) (cause : Option errors.GoError),
      errors.Wrap (some (errors.GoError.custom code message cause)) msg =
        some (errors.GoError.custom code (msg ++ ": " ++ message) cause)) :=
  ⟨fun _ => rfl, fun _ _ _ _ => rfl⟩

/-- C8, code evaluation at the failing input together with the half of the
claim that does hold: every probability the predictor returns is in [0,1]
(for any model and any query outcome), but when the model yields a value
outside [0,1] the function returns 0 with a nil error, not 0 with an
error, because errors.New("invalid prediction probability", nil) delegates
to Wrap, which maps the nil cause to a nil error. -/
theorem c8_out_of_range_returns_nil_error :
    (prediction.LSTMPredictor.PredictFailureProbability (fun _ => (1.5 : ℚ))
        (Except.ok ([] : List (storage.Metric Unit))) = (0, none)) ∧
    (∀ (predict : List ℚ → ℚ) (qr : Except String (List (storage.Metric Unit))),
      0 ≤ (prediction.LSTMPredictor.PredictFailureProbability predict qr).1 ∧
      (prediction.LSTMPredictor.PredictFailureProbability predict qr).1 ≤ 1) := by
  constructor
  · simp only [prediction.LSTMPredictor.PredictFailureProbability, prediction.extractFeatures,
      errors.New, errors.Wrap]
    norm_num
  · intro predict qr
    cases qr with
    | error e => simp [prediction.LSTMPredictor.PredictFailureProbability]
    | ok data =>
      simp only [prediction.LSTMPredictor.PredictFailureProbability]
      split_ifs with h
      · simp
      · push_neg at h
        exact ⟨h.1, h.2⟩

/-- C2, counterexample: the History Store append never rejects a stale
timestamp. Storing an entry with timestamp 5 and then an entry with
timestamp 3 succeeds and leaves the per-device sequence [5, 3], which is
not strictly increasing. -/
theorem c2_counterexample :
    storage.FileStorage.Store (storage.FileStorage.Store (Except.ok []) (metricT 5)) (metricT 3) =
      Except.ok [metricT 5, metricT 3] ∧
    (metricT 3).Timestamp ≤ (metricT 5).Timestamp ∧
    ¬ List.Chain' (fun a b => a < b) (([metricT 5, metricT 3]).map (fun m => m.Timestamp)) := by
  refine ⟨rfl, by norm_num [metricT], ?_⟩
  simp [metricT, List.chain'_cons]

/-- C2, amended: Store appends every entry unconditionally, even when its
timestamp is at most the last recorded one, so per-device timestamps
follow insertion order and need not be strictly increasing. -/
theorem c2_store_appends_unconditionally :
    ∀ (metrics : List (storage.Metric Unit)) (m last : storage.Metric Unit),
      metrics.getLast? = some last →
      m.Timestamp ≤ last.Timestamp →
      storage.FileStorage.Store (Except.ok metrics) m = Except.ok (metrics ++ [m]) :=
  fun _ _ _ _ _ => rfl

/-- Witness for c2_store_appends_unconditionally at the concrete input:
last recorded timestamp 5, new entry timestamp 3. -/
theorem c2_store_appends_unconditionally_witness :
    storage.FileStorage.Store (Except.ok [metricT 5]) (metricT 3) =
      Except.ok [metricT 5, metricT 3] :=
  c2_store_appends_unconditionally [metricT 5] (metricT 3) (metricT 5) rfl (by norm_num [metricT])

/-- C9, counterexample: with entries at timestamps 10 and 3 (in that
stored order), now = 10 and window = 7, the boundary entry at timestamp
3 = now - window is excluded by the source Query (strict After comparison)
and the result keeps stored order, while the spec window contract returns
both entries in ascending timestamp order. -/
theorem c9_counterexample :
    storage.FileStorage.Query (Except.ok [metricT 10, metricT 3]) 10 7 =
      Except.ok [metricT 10] ∧
    storage.FileStorage.QuerySpec [metricT 10, metricT 3] 10 7 = [metricT 3, metricT 10] ∧
    ([metricT 10] : List (storage.Metric Unit)) ≠ [metricT 3, metricT 10] := by
  refine ⟨rfl, rfl, ?_⟩
  simp [metricT]

/-- C9, amended: Query returns exactly the stored entries whose timestamp
is strictly greater than now minus the window (the boundary is excluded),
in stored (insertion) order, and the empty list when none qualify. -/
theorem c9_query_strict_window_stored_order :
    ∀ (metrics : List (storage.Metric Unit)) (now window : Int)
      (res : List (storage.Metric Unit)),
      storage.FileStorage.Query (Except.ok metrics) now window = Except.ok res →
      res.Sublist metrics ∧ ∀ m, m ∈ res ↔ m ∈ metrics ∧ now - window < m.Timestamp := by
  intro metrics now window res h
  simp only [storage.FileStorage.Query, Except.ok.injEq] at h
  subst h
  refine ⟨List.filter_sublist _, fun m => ?_⟩
  simp [List.mem_filter]

/-- Witness for c9_query_strict_window_stored_order at the concrete input
of the counterexample. -/
theorem c9_query_strict_window_stored_order_witness :
    ([metricT 10] : List (storage.Metric Unit)).Sublist [metricT 10, metricT 3] ∧
    ∀ m, m ∈ ([metricT 10] : List (storage.Metric Unit)) ↔
      m ∈ [metricT 10, metricT 3] ∧ (10 : Int) - 7 < m.Timestamp :=
  c9_query_strict_window_stored_order [metricT 10, metricT 3] 10 7 [metricT 10] rfl

/-- C3, counterexample: under the alternating verdict sequence Healthy,
SubHealthy, Healthy of the claim, the Recover call made at the final
Healthy check dispatches a recovery, because the source consults only the
current verdict and never the two preceding ones. -/
theorem c3_counterexample :
    healthyVerdictEx.Status = enum.HealthStatus.Healthy ∧
    subHealthyVerdictEx.Status = enum.HealthStatus.SubHealthy ∧
    remediation.RAIDRemediator.Recover enum.DeviceType.RAID "raid-0" (healthyVerdictEx, none) =
      ({ DeviceType := enum.DeviceType.RAID, DeviceID := "raid-0", Action := "recovered",
         Success := true, Error := none }, none) :=
  ⟨rfl, rfl, rfl⟩

/-- C3, amended: Recover dispatches a recovery exactly when the current
health check reports Healthy; no verdict history is consulted, so under an
alternating Healthy/SubHealthy sequence recovery dispatches at every
Healthy check. -/
theorem c3_recover_iff_current_healthy :
    ∀ (deviceID : String) (status : detection.HealthStatus),
      ((remediation.RAIDRemediator.Recover enum.DeviceType.RAID deviceID (status, none)).1.Action
          = "recovered" ∧
        (remediation.RAIDRemediator.Recover enum.DeviceType.RAID deviceID (status, none)).1.Success
          = true) ↔
      status.Status = enum.HealthStatus.Healthy := by
  intro deviceID status
  by_cases h : status.Status = enum.HealthStatus.Healthy <;>
    simp [remediation.RAIDRemediator.Recover, h]

/-- C1, code evaluation at the failing input: with auto isolation on, the
spec defaults min_healthy_paths = 1 and preserve_paths_ratio = 0.5, a
population of one (so zero non-isolated siblings remain after isolating),
and a SubHealthy verdict, Isolate dispatches the isolation even though the
path-preservation inequality of the spec fails (0 is less than
max(1, ceil(0.5))). The source Isolate never reads the PreservePathsRatio
and MinHealthyPaths fields of its configuration. -/
theorem c1_isolate_ignores_path_preservation :
    remediation.RAIDRemediator.Isolate remCfgEx enum.DeviceType.RAID "raid-0"
        enum.IsolationStrategy.Temporary (subHealthyVerdictEx, none) =
      ({ DeviceType := enum.DeviceType.RAID, DeviceID := "raid-0", Action := "isolated",
         Success := true, Error := none }, none) ∧
    ¬ remediation.pathPreservationOK remCfgEx 1 0 := by
  refine ⟨rfl, ?_⟩
  simp only [remediation.pathPreservationOK, remCfgEx]
  rw [show ((0.5 : ℚ) * ((1 : ℤ) : ℚ)) = 1 / 2 by norm_num]
  rw [show (⌈(1 / 2 : ℚ)⌉ : ℤ) = 1 by rw [Int.ceil_eq_iff] <;> norm_num]
  norm_num

/-- SMART data fixture for the disk-classifier counterexample: a read
error rate of 0.002 (above the claimed 0.001 threshold) with every other
indicator nominal. -/
def smartDataC4 : disk.SMARTData :=
  { DeviceID := "sda", Model := "TestDisk", SerialNumber := "SN0", Attributes := [],
    OverallStatus := enum.HealthStatus.Healthy, ReallocatedSectors := 0,
    ReadErrorRate := 0.002, Temperature := 40, PowerOnHours := 100, Timestamp := 0 }

/-- C4, counterexample: a sample whose read error rate 0.002 exceeds the
claimed critical threshold 0.001 is classified Healthy, not Failed: the
source threshold for the read-error critical rule is 0.1, and its warning
rule threshold is 0.01. -/
theorem c4_counterexample :
    smartDataC4.ReadErrorRate > 0.001 ∧
    disk.SMARTMonitor.assessOverallHealth smartDataC4 = enum.HealthStatus.Healthy := by
  constructor
  · norm_num [smartDataC4]
  · simp only [disk.SMARTMonitor.assessOverallHealth, smartDataC4]
    norm_num

/-- C4, amended: assessOverallHealth returns Failed exactly when
reallocated sectors exceed 100 or the read error rate exceeds 0.1 (it
returns a bare status, with no confidence attached), so a sample at
exactly 100 and exactly 0.1 is not classified Failed; separately, the
detection-package disk detector classifies reallocated sectors above 100
as SubHealthy with confidence 0.95 and recommendation to schedule disk
replacement, and has no read-error rule at all. -/
theorem c4_disk_failed_iff :
    (∀ data : disk.SMARTData,
      disk.SMARTMonitor.assessOverallHealth data = enum.HealthStatus.Failed ↔
        (data.ReallocatedSectors > 100 ∨ data.ReadErrorRate > 0.1)) ∧
    (∀ (config : detection.Config) (metrics : ebpf.DiskMetrics),
      metrics.SMART.ReallocatedSectors > 100 →
      ¬ metrics.IOPSVariance > config.IOPSVarThreshold →
      detection.DiskDetector.CheckSubHealth config metrics =
        { DeviceType := enum.DeviceType.Disk, Status := enum.HealthStatus.SubHealthy,
          Confidence := 0.95, Recommendation := "schedule disk replacement",
          Metrics := detection.Metrics.disk metrics }) := by
  constructor
  · intro data
    simp only [disk.SMARTMonitor.assessOverallHealth]
    split_ifs with h1 h2 h3 h4 h5 h6 <;> simp_all
  · intro config metrics h1 h2
    simp [detection.DiskDetector.CheckSubHealth, h1, h2]

/-- Witness for c4_disk_failed_iff: the critical reallocated-sectors rule
fires on a sample with 150 reallocated sectors, and the detection-package
disk detector marks the same count SubHealthy. -/
theorem c4_disk_failed_iff_witness :
    (disk.SMARTMonitor.assessOverallHealth
        { smartDataC4 with ReallocatedSectors := 150 } = enum.HealthStatus.Failed ↔
      ((150 : Int) > 100 ∨ smartDataC4.ReadErrorRate > 0.1)) ∧
    detection.DiskDetector.CheckSubHealth detCfgEx
        { IOPSVariance := 0, SMART := { ReallocatedSectors := 150 } } =
      { DeviceType := enum.DeviceType.Disk, Status := enum.HealthStatus.SubHealthy,
        Confidence := 0.95, Recommendation := "schedule disk replacement",
        Metrics := detection.Metrics.disk { IOPSVariance := 0, SMART := { ReallocatedSectors := 150 } } } :=
  ⟨c4_disk_failed_iff.1 { smartDataC4 with ReallocatedSectors := 150 },
    c4_disk_failed_iff.2 detCfgEx { IOPSVariance := 0, SMART := { ReallocatedSectors := 150 } }
      (by norm_num) (by norm_num [detCfgEx])⟩

/-- RAID monitor configuration fixture matching scenario A of the spec:
queue threshold 128, latency threshold 20ms, no firmware expectation. -/
def raidCfgEx : raid.Config :=
  { QueueThreshold := 128, LatencyThreshold := 20000000, FirmwareVersion := "", MonitorInterval := 0 }

/-- RAID metrics fixture triggering the queue, latency and retries rules
at once: queue depth 145, latency 25ms, 200 retries per hour. -/
def raidMetricsC5 : ebpf.RAIDMetrics :=
  { QueueDepth := 145, AvgLatency := 25000000, ErrorRetryRate := 200 }

/-- C5, counterexample: when the queue (0.95), latency (0.90) and retries
(0.99) rules all trigger on one sample, the verdict confidence is 0.99,
not the claimed minimum 0.90: the retries rule assigns its confidence
outright instead of taking a minimum. -/
theorem c5_counterexample :
    raidMetricsC5.QueueDepth ≥ raidCfgEx.QueueThreshold ∧
    raidMetricsC5.AvgLatency > raidCfgEx.LatencyThreshold ∧
    raidMetricsC5.ErrorRetryRate > 100 ∧
    (raid.RAIDController.CheckHealth raidCfgEx "c0" raidMetricsC5).Confidence = 0.99 ∧
    (0.99 : ℚ) ≠ 0.90 := by
  refine ⟨by norm_num [raidMetricsC5, raidCfgEx], by norm_num [raidMetricsC5, raidCfgEx],
    by norm_num [raidMetricsC5], ?_, by norm_num⟩
  simp only [raid.RAIDController.CheckHealth, raid.min, raidCfgEx, raidMetricsC5]
  norm_num

/-- C5, amended: the verdict is built by sequential overwriting, not by a
running maximum and minimum: the queue rule assigns confidence 0.95, the
latency rule takes the minimum with 0.90, but the retries rule overwrites
both status and confidence with Failed and 0.99; hence whenever the
retries rule triggers (with no firmware mismatch configured), the verdict
is Failed with confidence 0.99 regardless of the queue and latency rules,
and in particular the all-three-triggered sample yields 0.99, not 0.90. -/
theorem c5_confidence_overwritten :
    ∀ (config : raid.Config) (controllerID : String) (metrics : ebpf.RAIDMetrics),
      metrics.QueueDepth ≥ config.QueueThreshold →
      metrics.AvgLatency > config.LatencyThreshold →
      metrics.ErrorRetryRate > 100 →
      (config.FirmwareVersion = "" ∨ config.FirmwareVersion = "v1.0") →
      (raid.RAIDController.CheckHealth config controllerID metrics).Status =
          enum.HealthStatus.Failed ∧
        (raid.RAIDController.CheckHealth config controllerID metrics).Confidence = 0.99 := by
  intro config controllerID metrics hq hl he hfw
  have hf : ¬ (config.FirmwareVersion ≠ "" ∧ config.FirmwareVersion ≠ "v1.0") := by
    rcases hfw with h | h <;> simp [h]
  simp [raid.RAIDController.CheckHealth, hq, hl, he, hf]

/-- Witness for c5_confidence_overwritten at the all-three-triggered
fixture. -/
theorem c5_confidence_overwritten_witness :
    (raid.RAIDController.CheckHealth raidCfgEx "c0" raidMetricsC5).Status =
        enum.HealthStatus.Failed ∧
      (raid.RAIDController.CheckHealth raidCfgEx "c0" raidMetricsC5).Confidence = 0.99 :=
  c5_confidence_overwritten raidCfgEx "c0" raidMetricsC5 (by norm_num [raidMetricsC5, raidCfgEx])
    (by norm_num [raidMetricsC5, raidCfgEx]) (by norm_num [raidMetricsC5]) (Or.inl rfl)

/-- RAID metrics fixture at the exact queue boundary with the retries rule
also firing: queue depth equal to the threshold 128, no latency, 200
retries per hour. -/
def raidMetricsC6 : ebpf.RAIDMetrics :=
  { QueueDepth := 128, AvgLatency := 0, ErrorRetryRate := 200 }

/-- C6, counterexample: a sample whose queue depth meets the threshold
(128 = 128, so the claimed rule triggers) is not classified SubHealthy
with 0.95, because the later retries rule overwrites the verdict with
Failed, 0.99 and its own recommendation. -/
theorem c6_counterexample :
    raidMetricsC6.QueueDepth ≥ raidCfgEx.QueueThreshold ∧
    (raid.RAIDController.CheckHealth raidCfgEx "c0" raidMetricsC6).Status =
      enum.HealthStatus.Failed ∧
    (raid.RAIDController.CheckHealth raidCfgEx "c0" raidMetricsC6).Status ≠
      enum.HealthStatus.SubHealthy := by
  have hstat : (raid.RAIDController.CheckHealth raidCfgEx "c0" raidMetricsC6).Status =
      enum.HealthStatus.Failed := by
    simp only [raid.RAIDController.CheckHealth, raid.min, raidCfgEx, raidMetricsC6]
    norm_num
  exact ⟨by norm_num [raidMetricsC6, raidCfgEx], hstat, by rw [hstat]; decide⟩

/-- C6, amended: the queue rule is inclusive and the retries rule strict
exactly as claimed, but each rule describes the verdict only when no later
rule overrides it: when the queue depth meets the threshold (equality
included) and the latency, retries and firmware rules stay silent, the
verdict is SubHealthy, 0.95, temporary isolation recommended; when the
retry rate strictly exceeds 100 and no firmware mismatch is configured,
the verdict is Failed, 0.99, immediate isolation and replacement; and a
retry rate of at most 100 (in particular exactly 100) with no firmware
mismatch never yields a Failed verdict. -/
theorem c6_rule_boundaries :
    ∀ (config : raid.Config) (controllerID : String) (metrics : ebpf.RAIDMetrics),
      (config.FirmwareVersion = "" ∨ config.FirmwareVersion = "v1.0") →
      ((metrics.QueueDepth ≥ config.QueueThreshold →
          ¬ metrics.AvgLatency > config.LatencyThreshold →
          ¬ metrics.ErrorRetryRate > 100 →
          raid.RAIDController.CheckHealth config controllerID metrics =
            { ControllerID := controllerID, Status := enum.HealthStatus.SubHealthy,
              QueueDepth := metrics.QueueDepth, AvgLatency := metrics.AvgLatency,
              FirmwareStatus := "matched", Confidence := 0.95,
              Recommendation := "temporary isolation recommended" }) ∧
        (metrics.ErrorRetryRate > 100 →
          (raid.RAIDController.CheckHealth config controllerID metrics).Status =
              enum.HealthStatus.Failed ∧
            (raid.RAIDController.CheckHealth config controllerID metrics).Confidence = 0.99 ∧
            (raid.RAIDController.CheckHealth config controllerID metrics).Recommendation =
              "immediate isolation and replacement") ∧
        (¬ metrics.ErrorRetryRate > 100 →
          (raid.RAIDController.CheckHealth config controllerID metrics).Status ≠
            enum.HealthStatus.Failed)) := by
  intro config controllerID metrics hfw
  have hf : ¬ (config.FirmwareVersion ≠ "" ∧ config.FirmwareVersion ≠ "v1.0") := by
    rcases hfw with h | h <;> simp [h]
  refine ⟨fun hq hl he => ?_, fun he => ?_, fun he => ?_⟩
  · simp [raid.RAIDController.CheckHealth, hq, hl, he, hf]
  · simp [raid.RAIDController.CheckHealth, he, hf]
  · by_cases hq : metrics.QueueDepth ≥ config.QueueThreshold <;>
      by_cases hl : metrics.AvgLatency > config.LatencyThreshold <;>
      simp [raid.RAIDController.CheckHealth, hq, hl, he, hf]

/-- Witness for c6_rule_boundaries: queue depth exactly at the threshold
with all other rules silent yields the SubHealthy verdict; the retries
branch fires at 200; and exactly 100 retries is not Failed. -/
theorem c6_rule_boundaries_witness :
    raid.RAIDController.CheckHealth raidCfgEx "c0"
        { QueueDepth := 128, AvgLatency := 0, ErrorRetryRate := 0 } =
      { ControllerID := "c0", Status := enum.HealthStatus.SubHealthy, QueueDepth := 128,
        AvgLatency := 0, FirmwareStatus := "matched", Confidence := 0.95,
        Recommendation := "temporary isolation recommended" } ∧
    (raid.RAIDController.CheckHealth raidCfgEx "c0" raidMetricsC6).Status =
      enum.HealthStatus.Failed ∧
    (raid.RAIDController.CheckHealth raidCfgEx "c0"
        { QueueDepth := 128, AvgLatency := 0, ErrorRetryRate := 100 }).Status ≠
      enum.HealthStatus.Failed :=
  ⟨(c6_rule_boundaries raidCfgEx "c0" { QueueDepth := 128, AvgLatency := 0, ErrorRetryRate := 0 }
      (Or.inl rfl)).1 (by norm_num [raidCfgEx]) (by norm_num [raidCfgEx]) (by norm_num),
    ((c6_rule_boundaries raidCfgEx "c0" raidMetricsC6 (Or.inl rfl)).2.1
      (by norm_num [raidMetricsC6])).1,
    (c6_rule_boundaries raidCfgEx "c0" { QueueDepth := 128, AvgLatency := 0, ErrorRetryRate := 100 }
      (Or.inl rfl)).2.2 (by norm_num)⟩

/-- SMART data fixture with a given read error rate, for the forecaster
counterexample (all other indicators nominal). -/
def smartWithRate (rate : ℚ) : disk.SMARTData :=
  { DeviceID := "sda", Model := "TestDisk", SerialNumber := "SN0", Attributes := [],
    OverallStatus := enum.HealthStatus.Healthy, ReallocatedSectors := 0,
    ReadErrorRate := rate, Temperature := 40, PowerOnHours := 100, Timestamp := 0 }

/-- Two-entry history window whose read error rate grows tenfold, from
0.001 to 0.01. -/
def metricsC7 : List (storage.Metric (Option disk.SMARTData)) :=
  [ { Timestamp := 1, DeviceType := enum.DeviceType.Disk, DeviceID := "sda",
      Value := some (smartWithRate 0.001) },
    { Timestamp := 2, DeviceType := enum.DeviceType.Disk, DeviceID := "sda",
      Value := some (smartWithRate 0.01) } ]

/-- C7, counterexample: a window of exactly two entries (fewer than three)
does not produce the claimed low-data forecast: the early return requires
fewer than two entries, so with two entries the error trend is computed
(here increasing, since 0.01 exceeds 1.5 times 0.001) and the latency
trend field is left at the Go zero value, the empty string, rather than
stable; only the failure prediction is still false. -/
theorem c7_counterexample :
    metricsC7.length = 2 ∧
    disk.SMARTMonitor.MonitorPerformance "sda" (Except.ok metricsC7) =
      Except.ok { DeviceID := "sda", IOPSVariance := 0, LatencyTrend := "",
                  ErrorTrend := "increasing", PredictedFailure := false } := by
  refine ⟨rfl, ?_⟩
  simp only [disk.SMARTMonitor.MonitorPerformance, disk.SMARTMonitor.calculateIOPSVariance,
    disk.SMARTMonitor.analyzeErrorTrend, disk.SMARTMonitor.predictFailure,
    metricsC7, smartWithRate, List.filterMap_cons, List.filterMap_nil, Option.map_some]
  norm_num [List.headD, List.getLastD, List.getLast]

/-- C7, amended: the low-data forecast (zero variance, stable trends, no
predicted failure) is returned for windows of fewer than two entries, not
fewer than three; for any window of fewer than three entries the predicted
failure flag is still false, but a two-entry window has its trends
computed from the data. -/
theorem c7_low_data_forecast :
    ∀ (deviceID : String) (metrics : List (storage.Metric (Option disk.SMARTData))),
      (metrics.length < 2 →
        disk.SMARTMonitor.MonitorPerformance deviceID (Except.ok metrics) =
          Except.ok { DeviceID := deviceID, IOPSVariance := 0, LatencyTrend := "stable",
                      ErrorTrend := "stable", PredictedFailure := false }) ∧
      (metrics.length < 3 →
        ∀ pm, disk.SMARTMonitor.MonitorPerformance deviceID (Except.ok metrics) = Except.ok pm →
          pm.PredictedFailure = false) := by
  intro deviceID metrics
  constructor
  · intro h
    simp [disk.SMARTMonitor.MonitorPerformance, h]
  · intro h pm hpm
    by_cases h2 : metrics.length < 2
    · simp only [disk.SMARTMonitor.MonitorPerformance, if_pos h2, Except.ok.injEq] at hpm
      rw [← hpm]
    · simp only [disk.SMARTMonitor.MonitorPerformance, if_neg h2, Except.ok.injEq] at hpm
      rw [← hpm]
      simp [disk.SMARTMonitor.predictFailure, h]

/-- Witness for c7_low_data_forecast: the empty window yields the low-data
forecast, and the two-entry fixture still has no predicted failure. -/
theorem c7_low_data_forecast_witness :
    disk.SMARTMonitor.MonitorPerformance "sda"
        (Except.ok ([] : List (storage.Metric (Option disk.SMARTData)))) =
      Except.ok { DeviceID := "sda", IOPSVariance := 0, LatencyTrend := "stable",
                  ErrorTrend := "stable", PredictedFailure := false } ∧
    ({ DeviceID := "sda", IOPSVariance := 0, LatencyTrend := "",
       ErrorTrend := "increasing", PredictedFailure := false } :
        disk.PerformanceMetrics).PredictedFailure = false :=
  ⟨(c7_low_data_forecast "sda" []).1 (by norm_num),
    (c7_low_data_forecast "sda" metricsC7).2 (by norm_num [metricsC7])
      { DeviceID := "sda", IOPSVariance := 0, LatencyTrend := "",
        ErrorTrend := "increasing", PredictedFailure := false }
      c7_counterexample.2⟩
